import Mathlib

/-!
Shallow embedding of the `cachable` disk-memoization decorator
(`decorators.py`) and proofs about its key derivation, lookup protocol,
failure handling and permission propagation.

Modelling conventions:
* Python objects passed as arguments are represented by an abstract type
  `α` together with their string rendering `strOf : α → String` (Python's
  `str`) and their truthiness `truthy : α → Bool`.
* A Python return value is an `Option β`; `none` models Python `None`.
* The filesystem and the weak-reference dictionary are explicit state;
  one call of the wrapped function is a pure step on that state.
* A pickled file either deserializes to a value (`Blob.good`) or raises
  on load (`Blob.corrupt reason`); the outcome of a write attempt is an
  input of the step (`WriteOutcome`), which models the nondeterminism of
  the filesystem.  Exceptions absorbed by the wrapper become warnings in
  the step's output; the step being a total function models that the
  wrapper itself never raises on cache faults.
-/

namespace VresUtils

/-! ### SHA-1 (used by `name` for renderings longer than 40 characters) -/

/-- Truncate to 32 bits. -/
def w32 (n : Nat) : Nat := n % 4294967296

/-- Rotate a 32-bit word left by `s` bits. -/
def rotl32 (x s : Nat) : Nat := w32 ((x <<< s) ||| (x >>> (32 - s)))

/-- Big-endian byte rendering of `v` on `n` bytes. -/
def beBytes : Nat → Nat → List Nat
  | 0, _ => []
  | n + 1, v => beBytes n (v / 256) ++ [v % 256]

/-- Big-endian word from a byte list. -/
def beWord (bs : List Nat) : Nat := bs.foldl (fun a b => a * 256 + b) 0

/-- SHA-1 message padding: append `0x80`, zero padding to 56 mod 64,
then the bit length on 8 bytes. -/
def sha1pad (msg : List Nat) : List Nat :=
  msg ++ 128 :: List.replicate ((119 - msg.length % 64) % 64) 0 ++ beBytes 8 (8 * msg.length)

/-- Split a byte list into 64-byte chunks. -/
def chunks64 (l : List Nat) : List (List Nat) :=
  if h : l = [] then [] else l.take 64 :: chunks64 (l.drop 64)
termination_by l.length
decreasing_by
  simp only [List.length_drop]
  exact Nat.sub_lt (List.length_pos.mpr h) (by decide)

/-- The 16 initial schedule words of a 64-byte chunk. -/
def chunkWords (c : List Nat) : Array Nat :=
  ((List.range 16).map (fun i => beWord ((c.drop (4 * i)).take 4))).toArray

/-- Extend the 16 schedule words to 80. -/
def sha1schedule (ws : Array Nat) : Array Nat :=
  (List.range 64).foldl
    (fun w j =>
      let i := j + 16
      w.push (rotl32 ((w.get! (i - 3)) ^^^ (w.get! (i - 8)) ^^^
                      (w.get! (i - 14)) ^^^ (w.get! (i - 16))) 1))
    ws

/-- One SHA-1 compression round. -/
def sha1round (ws : Array Nat) (st : Nat × Nat × Nat × Nat × Nat) (i : Nat) :
    Nat × Nat × Nat × Nat × Nat :=
  let (a, b, c, d, e) := st
  let fk : Nat × Nat :=
    if i < 20 then ((b &&& c) ||| ((4294967295 ^^^ b) &&& d), 1518500249)
    else if i < 40 then (b ^^^ c ^^^ d, 1859775393)
    else if i < 60 then ((b &&& c) ||| (b &&& d) ||| (c &&& d), 2400959708)
    else (b ^^^ c ^^^ d, 3395469782)
  let temp := w32 (rotl32 a 5 + fk.1 + e + fk.2 + ws.get! i)
  (temp, a, rotl32 b 30, c, d)

/-- Process one 64-byte chunk. -/
def sha1chunk (h : Nat × Nat × Nat × Nat × Nat) (c : List Nat) :
    Nat × Nat × Nat × Nat × Nat :=
  let ws := sha1schedule (chunkWords c)
  let (a, b, cc, d, e) := (List.range 80).foldl (sha1round ws) h
  (w32 (h.1 + a), w32 (h.2.1 + b), w32 (h.2.2.1 + cc), w32 (h.2.2.2.1 + d), w32 (h.2.2.2.2 + e))

/-- Lowercase hex digit. -/
def hexDigit (n : Nat) : Char :=
  if n < 10 then Char.ofNat (48 + n) else Char.ofNat (87 + n)

/-- Eight lowercase hex digits of a 32-bit word. -/
def hex8 (n : Nat) : String :=
  String.mk ((List.range 8).map (fun i => hexDigit ((n >>> (4 * (7 - i))) % 16)))

/-- SHA-1 hex digest of the UTF-8 bytes of a string
(`hashlib.sha1(y).hexdigest()`). -/
def sha1hex (s : String) : String :=
  let msg := (s.toUTF8.toList).map (fun b => b.toNat)
  let h := (chunks64 (sha1pad msg)).foldl sha1chunk
    (1732584193, 4023233417, 2562383102, 271733878, 3285377520)
  hex8 h.1 ++ hex8 h.2.1 ++ hex8 h.2.2.1 ++ hex8 h.2.2.2.1 ++ hex8 h.2.2.2.2

/-! ### Key encoder -/

/-- Characters kept by `_format_filename`
(`"-_.() %s%s" % (string.ascii_letters, string.digits)`). -/
def valid_chars : List Char :=
  ("-_.() " ++ "abcdefghijklmnopqrstuvwxyzABCDEFGHIJKLMNOPQRSTUVWXYZ" ++ "0123456789").toList

/-- `_format_filename`: keep only allow-listed characters, then turn
spaces into underscores. -/
def _format_filename (s : String) : String :=
  String.mk ((s.toList.filter (fun c => c ∈ valid_chars)).map
    (fun c => if c = ' ' then '_' else c))

/-- `name` applied to an already-rendered string: strings longer than 40
characters are replaced by their SHA-1 hex digest. -/
def nameStr (y : String) : String :=
  if y.length > 40 then sha1hex y else y

/-- `name(x)`: render `x` with `str`, hash if longer than 40 characters. -/
def name (strOf : α → String) (x : α) : String := nameStr (strOf x)

/-- Static configuration of one decorated function: the decorator's
arguments together with the function's module and name, and the string
rendering / truthiness of the argument type. -/
structure CacheConfig (α : Type) where
  version : Option String
  cache_dir : String
  modname : String
  funcname : String
  keepweakref : Bool
  ignore : List String
  strOf : α → String
  truthy : α → Bool

/-- The per-function filename prefix
`cache_dir + "/" + func.__module__ + "." + func.__name__ + "_"`,
extended by `_format_filename("ver" + str(version) + "_")` when a
version is given.  `version` is modelled by its `str` rendering. -/
def cache_fn (cfg : CacheConfig α) : String :=
  cfg.cache_dir ++ "/" ++ cfg.modname ++ "." ++ cfg.funcname ++ "_" ++
    (match cfg.version with
      | some v => _format_filename ("ver" ++ v ++ "_")
      | none => "")

/-- Rendering of one keyword pair: `name(k) + '.' + name(v)`. -/
def kwPair (strOf : α → String) (p : String × α) : String :=
  nameStr p.1 ++ "." ++ name strOf p.2

/-- The cache filename derived from a call: positional arguments joined
by `_`, one `_`, the non-ignored keyword pairs joined by `_` in map
iteration order, `.pickle`, everything sanitized and appended to the
function prefix. -/
def cacheFilename (cfg : CacheConfig α) (args : List α) (kwds : List (String × α)) : String :=
  cache_fn cfg ++ _format_filename (
    String.intercalate "_" (args.map (name cfg.strOf)) ++ "_" ++
    String.intercalate "_"
      ((kwds.filter (fun p => p.1 ∉ cfg.ignore)).map (kwPair cfg.strOf)) ++
    ".pickle")

/-! ### Filesystem and weak-reference state -/

/-- Content of a cache file as seen by `cPickle.load`: either a value
(possibly the pickled `None`) or content whose load raises. -/
inductive Blob (β : Type) where
  | good (v : Option β)
  | corrupt (reason : String)
deriving DecidableEq

/-- A cache file: its content, and the group / permission bits the
wrapper has set on it via `os.fchown` / `os.fchmod` (`none`: the
wrapper set none, the file keeps ambient metadata). -/
structure FileData (β : Type) where
  blob : Blob β
  group : Option Nat
  perms : Option Nat
deriving DecidableEq

/-- Mutable state of one decorated function: the cache directory
(filename to file, `none`: no such file) and the weak-value dictionary
(filename to stored return value).  A weak entry holds an `Option β`
so that storing `None` is representable and refutable. -/
structure CacheState (β : Type) where
  disk : String → Option (FileData β)
  weak : String → Option (Option β)

/-- Group and mode captured at decoration time (`gid`/`mode` in
`cachable`, `none` modelling Python `None` after `os.mkdir`). -/
structure DirPolicy where
  gid : Option Nat
  mode : Option Nat
deriving DecidableEq

/-- `stat.S_IMODE(st.st_mode) & ~(S_IXUSR | S_IXGRP | S_IXOTH)`:
the low twelve permission bits with the three execute bits cleared. -/
def stripExec (m : Nat) : Nat := (m &&& 0o7777) &&& 0o7666

/-- Decoration-time directory policy: a missing directory is created
and records no override; an existing one contributes its group and its
exec-stripped permission bits. -/
def dirPolicy : Option (Nat × Nat) → DirPolicy
  | none => ⟨none, none⟩
  | some (g, m) => ⟨some g, some (stripExec m)⟩

/-- Python truthiness of `gid` / `mode` (`if gid:` / `if mode:`):
`None` and `0` are falsy. -/
def truthyNat : Option Nat → Bool
  | some n => n != 0
  | none => false

/-- Warnings emitted by the wrapper (`warn("Couldn't unpickle from %s:
%s" ...)` and `warn("Couldn't pickle to %s: %s" ...)`), carrying the
file path and the failure reason. -/
inductive CWarning where
  | unpickle (fn : String) (reason : String)
  | pickle (fn : String) (reason : String)
deriving DecidableEq

/-- Outcome of the write attempt, an input of the step: on failure the
raised reason and the file content left at the path (the source's
`open(fn, 'wb')` may have truncated or partially written it). -/
inductive WriteOutcome (β : Type) where
  | success
  | failure (reason : String) (leftover : Option (FileData β))

/-- Observable outcome of one call of the wrapped function. -/
structure CallResult (β : Type) where
  ret : Option β
  state : CacheState β
  invoked : Bool
  warnings : List CWarning

/-- Replace the file at `fn`. -/
def setFile (st : CacheState β) (fn : String) (fd : Option (FileData β)) : CacheState β :=
  { st with disk := fun k => if k = fn then fd else st.disk k }

/-- The file a successful write leaves behind: the pickled value, group
set by `os.fchown` only when `gid` is truthy, mode set by `os.fchmod`
only when `mode` is truthy; otherwise the previous metadata (truncating
an existing file keeps its metadata, a fresh file gets ambient ones). -/
def writtenFile (pol : DirPolicy) (old : Option (FileData β)) (v : Option β) : FileData β :=
  ⟨Blob.good v,
   if truthyNat pol.gid then pol.gid else (old.map FileData.group).join,
   if truthyNat pol.mode then pol.mode else (old.map FileData.perms).join⟩

/-- Successful `cPickle.dump` to `fn`. -/
def writeFile (pol : DirPolicy) (st : CacheState β) (fn : String) (v : Option β) : CacheState β :=
  setFile st fn (some (writtenFile pol (st.disk fn) v))

/-- `kwds.pop('recompute', False)` seen as a boolean:
the truthiness of the bound value, `False` when absent. -/
def recomputeFlag (cfg : CacheConfig α) (kwds : List (String × α)) : Bool :=
  match kwds.lookup "recompute" with
  | some v => cfg.truthy v
  | none => false

/-- Keyword map after `kwds.pop('recompute', False)`. -/
def popRecompute (kwds : List (String × α)) : List (String × α) :=
  kwds.filter (fun p => p.1 ≠ "recompute")

/-- The filename derived inside the wrapper (after the pop). -/
def callFn (cfg : CacheConfig α) (args : List α) (kwds : List (String × α)) : String :=
  cacheFilename cfg args (popRecompute kwds)

/-- `os.path.exists` plus `cPickle.load` under `try`: a missing file
yields nothing, a corrupt one yields nothing plus a warning, a good one
yields its pickled value. -/
def diskRead (st : CacheState β) (fn : String) : Option β × List CWarning :=
  match st.disk fn with
  | some fd =>
      match fd.blob with
      | Blob.good v => (v, [])
      | Blob.corrupt r => (none, [CWarning.unpickle fn r])
  | none => (none, [])

/-- The `elif not recompute and os.path.exists(fn)` phase. -/
def readPhase (recompute : Bool) (st : CacheState β) (fn : String) :
    Option β × List CWarning :=
  if !recompute then diskRead st fn else (none, [])

/-- Guard of the early weak-reference return
(`not recompute and keepweakref and fn in cache`). -/
def weakHitCond (cfg : CacheConfig α) (kwds : List (String × α))
    (st : CacheState β) (fn : String) : Bool :=
  !recomputeFlag cfg kwds && cfg.keepweakref && (st.weak fn).isSome

/-- Final weak-dictionary update
(`if keepweakref and ret is not None: cache[fn] = ret`). -/
def weakUpd (cfg : CacheConfig α) (st : CacheState β) (fn : String) (r : Option β) :
    CacheState β :=
  if cfg.keepweakref && r.isSome then
    { st with weak := fun k => if k = fn then some r else st.weak k }
  else st

/-- One call of the wrapped function, translated from `wrapper` in
`cachable.deco`: pop `recompute`, derive the filename, try the weak
dictionary, try the disk, otherwise invoke `f` on the popped arguments
and attempt to persist, finally update the weak dictionary and return. -/
def wrapperStep (cfg : CacheConfig α) (pol : DirPolicy)
    (f : List α → List (String × α) → Option β)
    (args : List α) (kwds0 : List (String × α))
    (wout : WriteOutcome β) (st : CacheState β) : CallResult β :=
  let kwds := popRecompute kwds0
  let fn := cacheFilename cfg args kwds
  if weakHitCond cfg kwds0 st fn then
    { ret := (st.weak fn).getD none, state := st, invoked := false, warnings := [] }
  else
    let rw := readPhase (recomputeFlag cfg kwds0) st fn
    if rw.1.isNone then
      let r := f args kwds
      match wout with
      | WriteOutcome.success =>
          { ret := r, state := weakUpd cfg (writeFile pol st fn r) fn r,
            invoked := true, warnings := rw.2 }
      | WriteOutcome.failure reason leftover =>
          { ret := r, state := weakUpd cfg (setFile st fn leftover) fn r,
            invoked := true, warnings := rw.2 ++ [CWarning.pickle fn reason] }
    else
      { ret := rw.1, state := weakUpd cfg st fn rw.1, invoked := false, warnings := rw.2 }

/-! ### Unfolding lemmas for the step -/

theorem wrapperStep_weakHit (cfg : CacheConfig α) (pol : DirPolicy)
    (f : List α → List (String × α) → Option β) (args : List α)
    (kwds0 : List (String × α)) (wout : WriteOutcome β) (st : CacheState β)
    (h : weakHitCond cfg kwds0 st (callFn cfg args kwds0) = true) :
    wrapperStep cfg pol f args kwds0 wout st =
      { ret := (st.weak (callFn cfg args kwds0)).getD none, state := st,
        invoked := false, warnings := [] } := by
  unfold wrapperStep
  simp only [callFn] at h ⊢
  simp [h]

theorem wrapperStep_diskHit (cfg : CacheConfig α) (pol : DirPolicy)
    (f : List α → List (String × α) → Option β) (args : List α)
    (kwds0 : List (String × α)) (wout : WriteOutcome β) (st : CacheState β)
    (b : β)
    (h : weakHitCond cfg kwds0 st (callFn cfg args kwds0) = false)
    (hr : (readPhase (recomputeFlag cfg kwds0) st (callFn cfg args kwds0)).1 = some b) :
    wrapperStep cfg pol f args kwds0 wout st =
      { ret := some b,
        state := weakUpd cfg st (callFn cfg args kwds0) (some b),
        invoked := false,
        warnings := (readPhase (recomputeFlag cfg kwds0) st (callFn cfg args kwds0)).2 } := by
  unfold wrapperStep
  simp only [callFn] at h hr ⊢
  simp [h, hr]

theorem wrapperStep_missSuccess (cfg : CacheConfig α) (pol : DirPolicy)
    (f : List α → List (String × α) → Option β) (args : List α)
    (kwds0 : List (String × α)) (st : CacheState β)
    (h : weakHitCond cfg kwds0 st (callFn cfg args kwds0) = false)
    (hr : (readPhase (recomputeFlag cfg kwds0) st (callFn cfg args kwds0)).1 = none) :
    wrapperStep cfg pol f args kwds0 WriteOutcome.success st =
      { ret := f args (popRecompute kwds0),
        state := weakUpd cfg
          (writeFile pol st (callFn cfg args kwds0) (f args (popRecompute kwds0)))
          (callFn cfg args kwds0) (f args (popRecompute kwds0)),
        invoked := true,
        warnings := (readPhase (recomputeFlag cfg kwds0) st (callFn cfg args kwds0)).2 } := by
  unfold wrapperStep
  simp only [callFn] at h hr ⊢
  simp [h, hr]

theorem wrapperStep_missFailure (cfg : CacheConfig α) (pol : DirPolicy)
    (f : List α → List (String × α) → Option β) (args : List α)
    (kwds0 : List (String × α)) (st : CacheState β)
    (reason : String) (leftover : Option (FileData β))
    (h : weakHitCond cfg kwds0 st (callFn cfg args kwds0) = false)
    (hr : (readPhase (recomputeFlag cfg kwds0) st (callFn cfg args kwds0)).1 = none) :
    wrapperStep cfg pol f args kwds0 (WriteOutcome.failure reason leftover) st =
      { ret := f args (popRecompute kwds0),
        state := weakUpd cfg (setFile st (callFn cfg args kwds0) leftover)
          (callFn cfg args kwds0) (f args (popRecompute kwds0)),
        invoked := true,
        warnings := (readPhase (recomputeFlag cfg kwds0) st (callFn cfg args kwds0)).2 ++
          [CWarning.pickle (callFn cfg args kwds0) reason] } := by
  unfold wrapperStep
  simp only [callFn] at h hr ⊢
  simp [h, hr]

/-! ### Projection helpers -/

theorem setFile_weak (st : CacheState β) (fn : String) (fd : Option (FileData β)) :
    (setFile st fn fd).weak = st.weak := rfl

theorem setFile_disk_self (st : CacheState β) (fn : String) (fd : Option (FileData β)) :
    (setFile st fn fd).disk fn = fd := by
  simp [setFile]

theorem writeFile_weak (pol : DirPolicy) (st : CacheState β) (fn : String) (v : Option β) :
    (writeFile pol st fn v).weak = st.weak := rfl

theorem writeFile_disk_self (pol : DirPolicy) (st : CacheState β) (fn : String) (v : Option β) :
    (writeFile pol st fn v).disk fn = some (writtenFile pol (st.disk fn) v) := by
  simp [writeFile, setFile]

theorem weakUpd_disk (cfg : CacheConfig α) (st : CacheState β) (fn : String) (r : Option β) :
    (weakUpd cfg st fn r).disk = st.disk := by
  unfold weakUpd
  split <;> rfl

theorem weakUpd_weak_apply (cfg : CacheConfig α) (st : CacheState β) (fn : String)
    (r : Option β) (k : String) :
    (weakUpd cfg st fn r).weak k =
      if cfg.keepweakref && r.isSome then
        (if k = fn then some r else st.weak k)
      else st.weak k := by
  unfold weakUpd
  split <;> simp_all

/-! ### Concrete fixtures -/

/-- A decorated function `m.f` with default decorator settings, cache
directory `c`; arguments are modelled by their `str` rendering, so
`strOf` is the identity and truthiness is non-emptiness. -/
def cfg0 : CacheConfig String :=
  { version := none, cache_dir := "c", modname := "m", funcname := "f",
    keepweakref := false, ignore := [], strOf := id,
    truthy := fun s => s ≠ "" }

/-- Same function decorated with `keepweakref=True`. -/
def cfgW : CacheConfig String :=
  { cfg0 with keepweakref := true }

/-- Same function decorated with `ignore={'x'}`. -/
def cfgI : CacheConfig String :=
  { cfg0 with ignore := ["x"] }

/-- Fresh state: no cache files, empty weak dictionary. -/
def st0 : CacheState Nat :=
  ⟨fun _ => none, fun _ => none⟩

/-- A wrapped function that returns Python `None` on every call. -/
def fNone : List String → List (String × String) → Option Nat :=
  fun _ _ => none

/-- A wrapped function that returns `42` on every call. -/
def fConst : List String → List (String × String) → Option Nat :=
  fun _ _ => some 42

/-- Policy of a freshly created cache directory. -/
def pol0 : DirPolicy := dirPolicy none

/-! ### Claims -/

/-- C2: whenever the cache file exists but deserializing it fails, the
wrapper emits a warning naming the file and the failure reason, treats
the entry as absent and invokes the wrapped function, whose value is
returned; the deserialization error is never raised (the step is a
total function). -/
theorem c2_corrupt_read_recovers (cfg : CacheConfig α) (pol : DirPolicy)
    (f : List α → List (String × α) → Option β) (args : List α)
    (kwds0 : List (String × α)) (wout : WriteOutcome β) (st : CacheState β)
    (fd : FileData β) (reason : String)
    (hrec : recomputeFlag cfg kwds0 = false)
    (hweak : st.weak (callFn cfg args kwds0) = none ∨ cfg.keepweakref = false)
    (hdisk : st.disk (callFn cfg args kwds0) = some fd)
    (hbad : fd.blob = Blob.corrupt reason) :
    CWarning.unpickle (callFn cfg args kwds0) reason ∈
        (wrapperStep cfg pol f args kwds0 wout st).warnings ∧
    (wrapperStep cfg pol f args kwds0 wout st).invoked = true ∧
    (wrapperStep cfg pol f args kwds0 wout st).ret = f args (popRecompute kwds0) := by
  have hw : weakHitCond cfg kwds0 st (callFn cfg args kwds0) = false := by
    rcases hweak with h | h <;> simp [weakHitCond, h]
  have hr : readPhase (recomputeFlag cfg kwds0) st (callFn cfg args kwds0) =
      (none, [CWarning.unpickle (callFn cfg args kwds0) reason]) := by
    simp [readPhase, hrec, diskRead, hdisk, hbad]
  have hr1 : (readPhase (recomputeFlag cfg kwds0) st (callFn cfg args kwds0)).1 = none := by
    rw [hr]
  cases wout with
  | success =>
      rw [wrapperStep_missSuccess cfg pol f args kwds0 st hw hr1]
      refine ⟨?_, rfl, rfl⟩
      rw [hr]
      simp
  | failure reason2 leftover =>
      rw [wrapperStep_missFailure cfg pol f args kwds0 st reason2 leftover hw hr1]
      refine ⟨?_, rfl, rfl⟩
      rw [hr]
      simp

/-- C3: on any call that reaches the computation path, a failing
serialization or write emits a warning naming the file and the reason,
and the freshly computed value is still returned to the caller. -/
theorem c3_write_failure_still_returns (cfg : CacheConfig α) (pol : DirPolicy)
    (f : List α → List (String × α) → Option β) (args : List α)
    (kwds0 : List (String × α)) (st : CacheState β)
    (reason : String) (leftover : Option (FileData β))
    (hinv : (wrapperStep cfg pol f args kwds0 (WriteOutcome.failure reason leftover) st).invoked
        = true) :
    CWarning.pickle (callFn cfg args kwds0) reason ∈
        (wrapperStep cfg pol f args kwds0 (WriteOutcome.failure reason leftover) st).warnings ∧
    (wrapperStep cfg pol f args kwds0 (WriteOutcome.failure reason leftover) st).ret =
      f args (popRecompute kwds0) := by
  cases hw : weakHitCond cfg kwds0 st (callFn cfg args kwds0) with
  | true =>
      rw [wrapperStep_weakHit cfg pol f args kwds0 _ st hw] at hinv
      cases hinv
  | false =>
      cases hrp : (readPhase (recomputeFlag cfg kwds0) st (callFn cfg args kwds0)).1 with
      | some b =>
          rw [wrapperStep_diskHit cfg pol f args kwds0 _ st b hw hrp] at hinv
          cases hinv
      | none =>
          rw [wrapperStep_missFailure cfg pol f args kwds0 st reason leftover hw hrp]
          exact ⟨by simp, rfl⟩

/-- C4: the reserved `recompute` keyword is removed from the keyword
map (defaulting to false when absent) and never reaches the wrapped
function, which is only ever applied to the popped map; a truthy
`recompute` forces invocation on any prior state, and on a successful
write the computed value overwrites whatever file was at the key. -/
theorem c4_recompute_reserved (cfg : CacheConfig α) (pol : DirPolicy)
    (f : List α → List (String × α) → Option β) (args : List α)
    (kwds0 : List (String × α)) (wout : WriteOutcome β) (st : CacheState β) :
    "recompute" ∉ (popRecompute kwds0).map Prod.fst ∧
    (kwds0.lookup "recompute" = none → recomputeFlag cfg kwds0 = false) ∧
    ((wrapperStep cfg pol f args kwds0 wout st).invoked = true →
      (wrapperStep cfg pol f args kwds0 wout st).ret = f args (popRecompute kwds0)) ∧
    (recomputeFlag cfg kwds0 = true →
      (wrapperStep cfg pol f args kwds0 wout st).invoked = true ∧
      (wrapperStep cfg pol f args kwds0 WriteOutcome.success st).state.disk
          (callFn cfg args kwds0) =
        some (writtenFile pol (st.disk (callFn cfg args kwds0))
          (f args (popRecompute kwds0)))) := by
  refine ⟨?_, ?_, ?_, ?_⟩
  · simp [popRecompute]
  · intro h
    simp [recomputeFlag, h]
  · cases hw : weakHitCond cfg kwds0 st (callFn cfg args kwds0) with
    | true =>
        rw [wrapperStep_weakHit cfg pol f args kwds0 wout st hw]
        intro h
        cases h
    | false =>
        cases hrp : (readPhase (recomputeFlag cfg kwds0) st (callFn cfg args kwds0)).1 with
        | some b =>
            rw [wrapperStep_diskHit cfg pol f args kwds0 wout st b hw hrp]
            intro h
            cases h
        | none =>
            cases wout with
            | success =>
                rw [wrapperStep_missSuccess cfg pol f args kwds0 st hw hrp]
                intro _
                rfl
            | failure reason leftover =>
                rw [wrapperStep_missFailure cfg pol f args kwds0 st reason leftover hw hrp]
                intro _
                rfl
  · intro hrec
    have hw : weakHitCond cfg kwds0 st (callFn cfg args kwds0) = false := by
      simp [weakHitCond, hrec]
    have hrp : (readPhase (recomputeFlag cfg kwds0) st (callFn cfg args kwds0)).1 = none := by
      simp [readPhase, hrec]
    constructor
    · cases wout with
      | success =>
          rw [wrapperStep_missSuccess cfg pol f args kwds0 st hw hrp]
      | failure reason leftover =>
          rw [wrapperStep_missFailure cfg pol f args kwds0 st reason leftover hw hrp]
    · rw [wrapperStep_missSuccess cfg pol f args kwds0 st hw hrp]
      show (weakUpd cfg _ _ _).disk _ = _
      rw [weakUpd_disk]
      exact writeFile_disk_self pol st (callFn cfg args kwds0) (f args (popRecompute kwds0))

/-- C6: the cache key depends on the keyword map only through its
non-ignored entries: two keyword maps whose non-ignored entries agree
give the same cache filename, for any positional arguments. -/
theorem c6_ignored_keys_same_key (cfg : CacheConfig α) (args : List α)
    (k1 k2 : List (String × α))
    (h : k1.filter (fun p => p.1 ∉ cfg.ignore) = k2.filter (fun p => p.1 ∉ cfg.ignore)) :
    cacheFilename cfg args k1 = cacheFilename cfg args k2 := by
  unfold cacheFilename
  rw [h]

/-- C7: a disk entry that successfully deserializes to Python `None` is
treated like a miss: the wrapped function is invoked and its value is
what the call returns, so a cached `None` is never served from disk. -/
theorem c7_cached_none_recomputed (cfg : CacheConfig α) (pol : DirPolicy)
    (f : List α → List (String × α) → Option β) (args : List α)
    (kwds0 : List (String × α)) (wout : WriteOutcome β) (st : CacheState β)
    (fd : FileData β)
    (hrec : recomputeFlag cfg kwds0 = false)
    (hweak : st.weak (callFn cfg args kwds0) = none ∨ cfg.keepweakref = false)
    (hdisk : st.disk (callFn cfg args kwds0) = some fd)
    (hblob : fd.blob = Blob.good none) :
    (wrapperStep cfg pol f args kwds0 wout st).invoked = true ∧
    (wrapperStep cfg pol f args kwds0 wout st).ret = f args (popRecompute kwds0) := by
  have hw : weakHitCond cfg kwds0 st (callFn cfg args kwds0) = false := by
    rcases hweak with h | h <;> simp [weakHitCond, h]
  have hrp : (readPhase (recomputeFlag cfg kwds0) st (callFn cfg args kwds0)).1 = none := by
    simp [readPhase, hrec, diskRead, hdisk, hblob]
  cases wout with
  | success =>
      rw [wrapperStep_missSuccess cfg pol f args kwds0 st hw hrp]
      exact ⟨rfl, rfl⟩
  | failure reason leftover =>
      rw [wrapperStep_missFailure cfg pol f args kwds0 st reason leftover hw hrp]
      exact ⟨rfl, rfl⟩

theorem weakUpd_none_ret (cfg : CacheConfig α) (st : CacheState β) (fn : String) :
    weakUpd cfg st fn none = st := by
  simp [weakUpd]

theorem weakUpd_no_none (cfg : CacheConfig α) (st : CacheState β) (fn : String)
    (r : Option β) (h : ∀ k, st.weak k ≠ some none) (k : String) :
    (weakUpd cfg st fn r).weak k ≠ some none := by
  rw [weakUpd_weak_apply]
  by_cases hc : (cfg.keepweakref && r.isSome) = true
  · rw [if_pos hc]
    by_cases hk2 : k = fn
    · rw [if_pos hk2]
      obtain ⟨b, hb⟩ := Option.isSome_iff_exists.mp ((Bool.and_eq_true _ _).mp hc).2
      rw [hb]
      simp
    · rw [if_neg hk2]
      exact h k
  · rw [if_neg hc]
    exact h k

/-- C10: with the weak-reference layer enabled, a call whose result is
Python `None` leaves the weak dictionary untouched, and no call ever
stores `None` there: the invariant that every weak entry holds a
non-`None` object is preserved by every call. -/
theorem c10_weak_layer_never_stores_none (cfg : CacheConfig α) (pol : DirPolicy)
    (f : List α → List (String × α) → Option β) (args : List α)
    (kwds0 : List (String × α)) (wout : WriteOutcome β) (st : CacheState β)
    (hk : cfg.keepweakref = true) :
    ((wrapperStep cfg pol f args kwds0 wout st).ret = none →
      ∀ k, (wrapperStep cfg pol f args kwds0 wout st).state.weak k = st.weak k) ∧
    ((∀ k, st.weak k ≠ some none) →
      ∀ k, (wrapperStep cfg pol f args kwds0 wout st).state.weak k ≠ some none) := by
  cases hw : weakHitCond cfg kwds0 st (callFn cfg args kwds0) with
  | true =>
      rw [wrapperStep_weakHit cfg pol f args kwds0 wout st hw]
      exact ⟨fun _ k => rfl, fun h k => h k⟩
  | false =>
      cases hrp : (readPhase (recomputeFlag cfg kwds0) st (callFn cfg args kwds0)).1 with
      | some b =>
          rw [wrapperStep_diskHit cfg pol f args kwds0 wout st b hw hrp]
          constructor
          · intro hret
            exact absurd hret (by simp)
          · intro hinv k
            exact weakUpd_no_none cfg st _ _ hinv k
      | none =>
          cases wout with
          | success =>
              rw [wrapperStep_missSuccess cfg pol f args kwds0 st hw hrp]
              constructor
              · intro hret k
                have hret' : f args (popRecompute kwds0) = none := hret
                show (weakUpd cfg
                    (writeFile pol st (callFn cfg args kwds0) (f args (popRecompute kwds0)))
                    (callFn cfg args kwds0) (f args (popRecompute kwds0))).weak k = st.weak k
                rw [hret', weakUpd_none_ret]
                rfl
              · intro hinv k
                exact weakUpd_no_none cfg
                  (writeFile pol st (callFn cfg args kwds0) (f args (popRecompute kwds0)))
                  (callFn cfg args kwds0) (f args (popRecompute kwds0))
                  (fun k2 => hinv k2) k
          | failure reason leftover =>
              rw [wrapperStep_missFailure cfg pol f args kwds0 st reason leftover hw hrp]
              constructor
              · intro hret k
                have hret' : f args (popRecompute kwds0) = none := hret
                show (weakUpd cfg (setFile st (callFn cfg args kwds0) leftover)
                    (callFn cfg args kwds0) (f args (popRecompute kwds0))).weak k = st.weak k
                rw [hret', weakUpd_none_ret]
                rfl
              · intro hinv k
                exact weakUpd_no_none cfg (setFile st (callFn cfg args kwds0) leftover)
                  (callFn cfg args kwds0) (f args (popRecompute kwds0))
                  (fun k2 => hinv k2) k

/-- C1 fails as stated: for a wrapped function that returns Python
`None`, two identical calls (no `recompute`, first write successful)
invoke the underlying function twice — the second call re-executes the
computation because a cached `None` is indistinguishable from a miss. -/
theorem c1_counterexample :
    (wrapperStep cfg0 pol0 fNone [] [] WriteOutcome.success st0).invoked = true ∧
    (wrapperStep cfg0 pol0 fNone [] [] WriteOutcome.success
        (wrapperStep cfg0 pol0 fNone [] [] WriteOutcome.success st0).state).invoked = true := by
  decide

/-- C1 (amended): provided the first call's result is not Python `None`
and its cache write succeeds, a second call with identical arguments
(no truthy `recompute`) does not invoke the underlying function and
returns a value equal to the first call's result; in particular the
underlying function runs at most once across the two calls. -/
theorem c1_amended_second_call_cached (cfg : CacheConfig α) (pol : DirPolicy)
    (f : List α → List (String × α) → Option β) (args : List α)
    (kwds0 : List (String × α)) (st : CacheState β) (wout2 : WriteOutcome β)
    (hrec : recomputeFlag cfg kwds0 = false)
    (hsome : (wrapperStep cfg pol f args kwds0 WriteOutcome.success st).ret.isSome = true) :
    (wrapperStep cfg pol f args kwds0 wout2
        (wrapperStep cfg pol f args kwds0 WriteOutcome.success st).state).invoked = false ∧
    (wrapperStep cfg pol f args kwds0 wout2
        (wrapperStep cfg pol f args kwds0 WriteOutcome.success st).state).ret =
      (wrapperStep cfg pol f args kwds0 WriteOutcome.success st).ret := by
  cases hw : weakHitCond cfg kwds0 st (callFn cfg args kwds0) with
  | true =>
      rw [wrapperStep_weakHit cfg pol f args kwds0 WriteOutcome.success st hw] at hsome ⊢
      rw [wrapperStep_weakHit cfg pol f args kwds0 wout2 st hw]
      exact ⟨rfl, rfl⟩
  | false =>
      cases hrp : (readPhase (recomputeFlag cfg kwds0) st (callFn cfg args kwds0)).1 with
      | some b =>
          rw [wrapperStep_diskHit cfg pol f args kwds0 WriteOutcome.success st b hw hrp]
            at hsome ⊢
          cases hkw : cfg.keepweakref with
          | true =>
              have hwk2 : weakHitCond cfg kwds0
                  (weakUpd cfg st (callFn cfg args kwds0) (some b))
                  (callFn cfg args kwds0) = true := by
                simp [weakHitCond, hrec, hkw, weakUpd_weak_apply]
              rw [wrapperStep_weakHit cfg pol f args kwds0 wout2 _ hwk2]
              refine ⟨rfl, ?_⟩
              show ((weakUpd cfg st _ _).weak _).getD none = some b
              rw [weakUpd_weak_apply]
              simp [hkw]
          | false =>
              have hupd : weakUpd cfg st (callFn cfg args kwds0) (some b) = st := by
                simp [weakUpd, hkw]
              rw [hupd]
              rw [wrapperStep_diskHit cfg pol f args kwds0 wout2 st b hw hrp]
              exact ⟨rfl, rfl⟩
      | none =>
          rw [wrapperStep_missSuccess cfg pol f args kwds0 st hw hrp] at hsome ⊢
          have hsome' : (f args (popRecompute kwds0)).isSome = true := hsome
          obtain ⟨b, hb⟩ := Option.isSome_iff_exists.mp hsome'
          cases hkw : cfg.keepweakref with
          | true =>
              have hwk2 : weakHitCond cfg kwds0
                  (weakUpd cfg
                    (writeFile pol st (callFn cfg args kwds0) (f args (popRecompute kwds0)))
                    (callFn cfg args kwds0) (f args (popRecompute kwds0)))
                  (callFn cfg args kwds0) = true := by
                simp [weakHitCond, hrec, hkw, weakUpd_weak_apply, hb]
              rw [wrapperStep_weakHit cfg pol f args kwds0 wout2 _ hwk2]
              refine ⟨rfl, ?_⟩
              show ((weakUpd cfg _ _ _).weak _).getD none = f args (popRecompute kwds0)
              rw [weakUpd_weak_apply]
              simp [hkw, hb]
          | false =>
              have hupd : weakUpd cfg
                  (writeFile pol st (callFn cfg args kwds0) (f args (popRecompute kwds0)))
                  (callFn cfg args kwds0) (f args (popRecompute kwds0)) =
                  writeFile pol st (callFn cfg args kwds0) (f args (popRecompute kwds0)) := by
                simp [weakUpd, hkw]
              rw [hupd]
              have hw2 : weakHitCond cfg kwds0
                  (writeFile pol st (callFn cfg args kwds0) (f args (popRecompute kwds0)))
                  (callFn cfg args kwds0) = false := by
                simp [weakHitCond, hkw]
              have hrp2 : (readPhase (recomputeFlag cfg kwds0)
                  (writeFile pol st (callFn cfg args kwds0) (f args (popRecompute kwds0)))
                  (callFn cfg args kwds0)).1 = some b := by
                simp [readPhase, hrec, diskRead, writeFile_disk_self, writtenFile, hb]
              rw [wrapperStep_diskHit cfg pol f args kwds0 wout2 _ b hw2 hrp2]
              exact ⟨rfl, by simp [hb]⟩

/-- C5 fails as stated: the code renders keyword pairs in map iteration
order without sorting, so the same two bindings presented in different
orders derive different cache keys. -/
theorem c5_counterexample :
    cacheFilename cfg0 [] [("a", "1"), ("b", "2")] ≠
      cacheFilename cfg0 [] [("b", "2"), ("a", "1")] := by
  decide

/-- C5 (amended): the cache key is a function of the rendered positional
sequence and the rendered non-ignored keyword pairs in map iteration
order: two calls agreeing on those renderings (in the same order) get
the same key.  No sorting is performed, so equal bindings in different
iteration orders may differ; and the converse does not hold either,
since sanitization may collapse distinct renderings. -/
theorem c5_amended_key_from_renderings (cfg : CacheConfig α) (a1 a2 : List α)
    (k1 k2 : List (String × α))
    (hargs : a1.map (name cfg.strOf) = a2.map (name cfg.strOf))
    (hkw : (k1.filter (fun p => p.1 ∉ cfg.ignore)).map (kwPair cfg.strOf) =
        (k2.filter (fun p => p.1 ∉ cfg.ignore)).map (kwPair cfg.strOf)) :
    cacheFilename cfg a1 k1 = cacheFilename cfg a2 k2 := by
  unfold cacheFilename
  rw [hargs, hkw]

theorem format_filename_append (a b : String) :
    _format_filename (a ++ b) = _format_filename a ++ _format_filename b := by
  cases a with
  | mk la =>
    cases b with
    | mk lb =>
      apply String.ext
      simp [_format_filename, String.toList]

/-- C8 fails as stated: the on-disk extension is `.pickle`, not
`.cache` — shown on the call `f('21')` of the fixture function. -/
theorem c8_counterexample :
    cacheFilename cfg0 ["21"] [] = "c/m.f_21_.pickle" ∧
    List.isSuffixOf (String.toList ".cache") (String.toList (cacheFilename cfg0 ["21"] []))
      = false := by
  decide

/-- C8 (amended): the cache file path is
`<cacheRoot>/<module>.<funcname>_` followed by the optional sanitized
`ver<tag>_` segment, the sanitized positional arguments joined by
underscores, an underscore, the sanitized keyword `key.value` pairs
joined by underscores, and the extension `.pickle`; sanitization keeps
letters, digits, space and `-_.()` and turns spaces into underscores. -/
theorem c8_amended_filename_shape (cfg : CacheConfig α) (args : List α)
    (kwds : List (String × α)) :
    cacheFilename cfg args kwds =
      cfg.cache_dir ++ "/" ++ cfg.modname ++ "." ++ cfg.funcname ++ "_" ++
      (match cfg.version with
        | some v => _format_filename ("ver" ++ v ++ "_")
        | none => "") ++
      (_format_filename (String.intercalate "_" (args.map (name cfg.strOf))) ++ "_" ++
       _format_filename (String.intercalate "_"
         ((kwds.filter (fun p => p.1 ∉ cfg.ignore)).map (kwPair cfg.strOf))) ++
       ".pickle") := by
  have h1 : _format_filename "_" = "_" := by decide
  have h2 : _format_filename ".pickle" = ".pickle" := by decide
  unfold cacheFilename cache_fn
  rw [format_filename_append, format_filename_append, format_filename_append, h1, h2]

/-- C9 fails as stated: with a captured group id of `0` (and directory
mode `0o777`), the wrapper does not apply the captured group to the
file it writes — `if gid:` is false for `0` — even though the stripped
mode `0o666` is applied. -/
theorem c9_counterexample :
    ((wrapperStep cfg0 (dirPolicy (some (0, 0o777))) fConst ["21"] []
        WriteOutcome.success st0).state.disk "c/m.f_21_.pickle").map FileData.group
      = some none ∧
    ¬ ((wrapperStep cfg0 (dirPolicy (some (0, 0o777))) fConst ["21"] []
        WriteOutcome.success st0).state.disk "c/m.f_21_.pickle").map FileData.group
      = some (some 0) := by
  decide

/-- C9 (amended): when the cache directory pre-exists with group `g`
and mode `m`, every file the wrapper writes (on a call that invokes and
persists) carries group `g` provided `g ≠ 0`, and carries the
exec-stripped permission bits provided they are nonzero; a zero group
id or zero stripped mode is not applied (Python truthiness of the
`if gid:` / `if mode:` guards). -/
theorem c9_amended_nonzero_policy_applied (cfg : CacheConfig α)
    (f : List α → List (String × α) → Option β) (args : List α)
    (kwds0 : List (String × α)) (st : CacheState β) (g m : Nat)
    (hg : g ≠ 0)
    (hinv : (wrapperStep cfg (dirPolicy (some (g, m))) f args kwds0
        WriteOutcome.success st).invoked = true) :
    ((wrapperStep cfg (dirPolicy (some (g, m))) f args kwds0 WriteOutcome.success
        st).state.disk (callFn cfg args kwds0)).map FileData.group = some (some g) ∧
    (stripExec m ≠ 0 →
      ((wrapperStep cfg (dirPolicy (some (g, m))) f args kwds0 WriteOutcome.success
          st).state.disk (callFn cfg args kwds0)).map FileData.perms
        = some (some (stripExec m))) := by
  cases hw : weakHitCond cfg kwds0 st (callFn cfg args kwds0) with
  | true =>
      rw [wrapperStep_weakHit cfg _ f args kwds0 WriteOutcome.success st hw] at hinv
      cases hinv
  | false =>
      cases hrp : (readPhase (recomputeFlag cfg kwds0) st (callFn cfg args kwds0)).1 with
      | some b =>
          rw [wrapperStep_diskHit cfg _ f args kwds0 WriteOutcome.success st b hw hrp] at hinv
          cases hinv
      | none =>
          rw [wrapperStep_missSuccess cfg _ f args kwds0 st hw hrp]
          have hdisk : (weakUpd cfg
              (writeFile (dirPolicy (some (g, m))) st (callFn cfg args kwds0)
                (f args (popRecompute kwds0)))
              (callFn cfg args kwds0) (f args (popRecompute kwds0))).disk
                (callFn cfg args kwds0) =
              some (writtenFile (dirPolicy (some (g, m)))
                (st.disk (callFn cfg args kwds0)) (f args (popRecompute kwds0))) := by
            rw [weakUpd_disk]
            exact writeFile_disk_self _ st _ _
          constructor
          · show ((weakUpd cfg _ _ _).disk _).map FileData.group = _
            rw [hdisk]
            simp [writtenFile, dirPolicy, truthyNat, hg]
          · intro hm
            show ((weakUpd cfg _ _ _).disk _).map FileData.perms = _
            rw [hdisk]
            simp [writtenFile, dirPolicy, truthyNat, hm]

/-! ### Witness fixtures and witnesses -/

/-- A state holding a corrupt cache file for the call `f('21')`. -/
def stCorrupt : CacheState Nat :=
  ⟨fun k => if k = "c/m.f_21_.pickle" then some ⟨Blob.corrupt "bad", none, none⟩ else none,
   fun _ => none⟩

/-- A state holding a successfully pickled `None` for the call `f('21')`. -/
def stNoneFile : CacheState Nat :=
  ⟨fun k => if k = "c/m.f_21_.pickle" then some ⟨Blob.good none, none, none⟩ else none,
   fun _ => none⟩

theorem c1_witness :
    (wrapperStep cfg0 pol0 fConst ["21"] [] WriteOutcome.success
        (wrapperStep cfg0 pol0 fConst ["21"] [] WriteOutcome.success st0).state).invoked
      = false ∧
    (wrapperStep cfg0 pol0 fConst ["21"] [] WriteOutcome.success
        (wrapperStep cfg0 pol0 fConst ["21"] [] WriteOutcome.success st0).state).ret =
      (wrapperStep cfg0 pol0 fConst ["21"] [] WriteOutcome.success st0).ret :=
  c1_amended_second_call_cached cfg0 pol0 fConst ["21"] [] st0 WriteOutcome.success
    (by decide) (by decide)

theorem c2_witness :
    CWarning.unpickle (callFn cfg0 ["21"] []) "bad" ∈
        (wrapperStep cfg0 pol0 fConst ["21"] [] WriteOutcome.success stCorrupt).warnings ∧
    (wrapperStep cfg0 pol0 fConst ["21"] [] WriteOutcome.success stCorrupt).invoked = true ∧
    (wrapperStep cfg0 pol0 fConst ["21"] [] WriteOutcome.success stCorrupt).ret =
      fConst ["21"] (popRecompute []) :=
  c2_corrupt_read_recovers cfg0 pol0 fConst ["21"] [] WriteOutcome.success stCorrupt
    ⟨Blob.corrupt "bad", none, none⟩ "bad" (by decide) (Or.inl (by decide)) (by decide) rfl

theorem c3_witness :
    CWarning.pickle (callFn cfg0 ["21"] []) "denied" ∈
        (wrapperStep cfg0 pol0 fConst ["21"] []
          (WriteOutcome.failure "denied" none) st0).warnings ∧
    (wrapperStep cfg0 pol0 fConst ["21"] [] (WriteOutcome.failure "denied" none) st0).ret =
      fConst ["21"] (popRecompute []) :=
  c3_write_failure_still_returns cfg0 pol0 fConst ["21"] [] st0 "denied" none (by decide)

theorem c4_witness :
    (wrapperStep cfg0 pol0 fConst ["7"] [("recompute", "True")]
        WriteOutcome.success st0).invoked = true ∧
    (wrapperStep cfg0 pol0 fConst ["7"] [("recompute", "True")]
        WriteOutcome.success st0).state.disk (callFn cfg0 ["7"] [("recompute", "True")]) =
      some (writtenFile pol0 (st0.disk (callFn cfg0 ["7"] [("recompute", "True")]))
        (fConst ["7"] (popRecompute [("recompute", "True")]))) :=
  (c4_recompute_reserved cfg0 pol0 fConst ["7"] [("recompute", "True")]
    WriteOutcome.success st0).2.2.2 (by decide)

theorem c5_witness :
    cacheFilename cfgI ["7"] [("x", "9"), ("a", "1")] =
      cacheFilename cfgI ["7"] [("a", "1"), ("x", "8")] :=
  c5_amended_key_from_renderings cfgI ["7"] ["7"]
    [("x", "9"), ("a", "1")] [("a", "1"), ("x", "8")] (by decide) (by decide)

theorem c6_witness :
    cacheFilename cfgI ["7"] [("a", "1"), ("x", "9")] =
      cacheFilename cfgI ["7"] [("a", "1")] :=
  c6_ignored_keys_same_key cfgI ["7"] [("a", "1"), ("x", "9")] [("a", "1")] (by decide)

theorem c7_witness :
    (wrapperStep cfg0 pol0 fConst ["21"] [] WriteOutcome.success stNoneFile).invoked = true ∧
    (wrapperStep cfg0 pol0 fConst ["21"] [] WriteOutcome.success stNoneFile).ret =
      fConst ["21"] (popRecompute []) :=
  c7_cached_none_recomputed cfg0 pol0 fConst ["21"] [] WriteOutcome.success stNoneFile
    ⟨Blob.good none, none, none⟩ (by decide) (Or.inl (by decide)) (by decide) rfl

theorem c9_witness :
    ((wrapperStep cfg0 (dirPolicy (some (100, 0o664))) fConst ["21"] []
        WriteOutcome.success st0).state.disk (callFn cfg0 ["21"] [])).map FileData.group
      = some (some 100) ∧
    ((wrapperStep cfg0 (dirPolicy (some (100, 0o664))) fConst ["21"] []
        WriteOutcome.success st0).state.disk (callFn cfg0 ["21"] [])).map FileData.perms
      = some (some (stripExec 0o664)) := by
  have h := c9_amended_nonzero_policy_applied cfg0 fConst ["21"] [] st0 100 0o664
    (by decide) (by decide)
  exact ⟨h.1, h.2 (by decide)⟩

theorem c10_witness :
    (wrapperStep cfgW pol0 fNone [] [] WriteOutcome.success st0).state.weak "k" =
      st0.weak "k" ∧
    (wrapperStep cfgW pol0 fNone [] [] WriteOutcome.success st0).state.weak "k" ≠
      some none := by
  have h := c10_weak_layer_never_stores_none cfgW pol0 fNone [] [] WriteOutcome.success st0 rfl
  exact ⟨h.1 (by decide) "k", h.2 (fun k h2 => Option.noConfusion h2) "k"⟩

end VresUtils
